import Mathlib

/-!
Verification development for the v4l2 video-capture plugin
(src/plugins/linux-v4l2/v4l2-input.c).

The C code is shallowly embedded: pure helpers become Lean functions;
the ioctl/mmap/thread side effects are made explicit, either as values
supplied by an environment record (the driver's answers) or as an `Act`
trace listing the effectful calls a function performs, in order.
Machine integers (`int` is 32-bit on the targeted platforms) are
modelled as `Int` with explicit two's-complement wrapping where the C
arithmetic can wrap.
-/

namespace V4l2

/-! ## Pixel formats and the format mapper -/

/-- `enum video_format` from obs: only the members this plugin produces. -/
inductive VideoFormat
  | none
  | yvyu
  | yuy2
  | uyvy
  | nv12
  | i420
  deriving DecidableEq, Repr

/-- fourcc code of V4L2_PIX_FMT_YVYU. -/
def V4L2_PIX_FMT_YVYU : Int := 0x55595659
/-- fourcc code of V4L2_PIX_FMT_YUYV. -/
def V4L2_PIX_FMT_YUYV : Int := 0x56595559
/-- fourcc code of V4L2_PIX_FMT_UYVY. -/
def V4L2_PIX_FMT_UYVY : Int := 0x59565955
/-- fourcc code of V4L2_PIX_FMT_NV12. -/
def V4L2_PIX_FMT_NV12 : Int := 0x3231564E
/-- fourcc code of V4L2_PIX_FMT_YUV420. -/
def V4L2_PIX_FMT_YUV420 : Int := 0x32315559
/-- fourcc code of V4L2_PIX_FMT_YVU420. -/
def V4L2_PIX_FMT_YVU420 : Int := 0x32315659

/-- Embeds `v4l2_to_obs_video_format` (v4l2-input.c:85): a switch over
the six recognised fourcc codes, everything else mapping to
`VIDEO_FORMAT_NONE`. -/
def v4l2_to_obs_video_format (format : Int) : VideoFormat :=
  if format = V4L2_PIX_FMT_YVYU then VideoFormat.yvyu
  else if format = V4L2_PIX_FMT_YUYV then VideoFormat.yuy2
  else if format = V4L2_PIX_FMT_UYVY then VideoFormat.uyvy
  else if format = V4L2_PIX_FMT_NV12 then VideoFormat.nv12
  else if format = V4L2_PIX_FMT_YUV420 then VideoFormat.i420
  else if format = V4L2_PIX_FMT_YVU420 then VideoFormat.i420
  else VideoFormat.none

/-! ## Packed tuple codec -/

/-- Two's-complement wrap of an integer to the 32-bit signed range,
modelling C `int` overflow under the usual wrapping semantics. -/
def wrap32 (x : Int) : Int :=
  (x + 2147483648) % 4294967296 - 2147483648

/-- Embeds `pack_tuple` (v4l2-input.c:101): `(a << 16) | (b & 0xffff)`
on 32-bit `int`.  `b & 0xffff` is the nonnegative residue
`b % 65536`; since the low 16 bits of `a << 16` are zero, the
bitwise or is plain addition, and the whole expression wraps at 32
bits. -/
def pack_tuple (a b : Int) : Int :=
  wrap32 (a * 65536 + b % 65536)

/-- Embeds `unpack_tuple` (v4l2-input.c:106): `*a = packed >> 16`
(arithmetic shift, i.e. floor division for in-range `int` values) and
`*b = packed & 0xffff`. -/
def unpack_tuple (packed : Int) : Int × Int :=
  (packed / 65536, packed % 65536)

/-! ## Data structures -/

/-- Where a buffer's `start` pointer can point: still zeroed from
`bzalloc` (NULL), the `MAP_FAILED` sentinel, or a successful mapping of
pool slot `j`. -/
inductive Ptr
  | null
  | mapFailed
  | mapped (j : Nat)
  deriving DecidableEq, Repr

/-- Embeds `struct v4l2_buffer_data` (v4l2-input.c:45). -/
structure BufferData where
  length : Nat
  start : Ptr
  deriving DecidableEq, Repr

/-- Embeds `struct v4l2_data` (v4l2-input.c:60).  `thread` is the
stored `pthread_t`, with `0` the `bzalloc` initial value that the code
itself uses as the "no thread" test; `set_device = none` models the
NULL pointer; `dev = -1` is the closed-device sentinel.  The
`obs_source_t source` backreference is irrelevant to the claims and
omitted. -/
structure V4l2Data where
  thread : Nat
  set_device : Option String
  set_pixfmt : Int
  set_res : Int
  set_fps : Int
  dev : Int
  frames : Nat
  width : Int
  height : Int
  pixfmt : Int
  linesize : Nat
  buf_count : Nat
  buf : List BufferData
  deriving DecidableEq, Repr

/-- The scalar settings the plugin reads from / writes to the obs data
store: `device_id`, `pixelformat`, `resolution`, `framerate`. -/
structure Settings where
  device_id : String
  pixelformat : Int
  resolution : Int
  framerate : Int
  deriving DecidableEq, Repr

/-- One effectful call performed by the embedded code, in program
order.  `probeOpen`/`probeOpenFail`/`probeClose` are the
enumeration-only open/close of candidate devices inside
`v4l2_device_list`; `openDev`/`closeDev` are the capture session's
device handle; the rest are the ioctl/mmap/thread/event calls. -/
inductive Act
  | probeOpen (path : String)
  | probeOpenFail (path : String)
  | probeClose (path : String)
  | openDev (path : String)
  | setFmt
  | setParm
  | reqbufs
  | querybuf (i : Nat)
  | mmapBuf (i : Nat)
  | munmapBuf (i : Nat) (len : Nat)
  | freeBufArray
  | eventInit
  | eventSignal
  | eventDestroy
  | threadCreate (t : Nat)
  | threadJoin (t : Nat)
  | closeDev (fd : Int)
  | qbuf (i : Nat)
  | streamOn
  | selectCall (sec : Nat)
  | dqbufCall
  | deliverFrame (idx : Nat) (ts : Nat)
  | streamOff
  deriving DecidableEq, Repr

/-- True on a buffer slot whose mapping is currently live. -/
def isMappedEntry (b : BufferData) : Bool :=
  match b.start with
  | Ptr.mapped _ => true
  | _ => false

/-- Number of currently mapped buffers in the pool. -/
def mappedCount (d : V4l2Data) : Nat :=
  d.buf.countP isMappedEntry

/-! ## Buffer pool manager -/

/-- Driver-side outcomes for one `v4l2_create_mmap` run: the REQBUFS
answer (`none` = ioctl failure, `some n` = granted count), the QUERYBUF
answer per index (`none` = failure, `some len` = buffer length), and
whether `v4l2_mmap` succeeds for each index. -/
structure MmapEnv where
  reqbufs : Option Nat
  querybuf : Nat → Option Nat
  mmapOk : Nat → Bool

/-- The per-buffer loop of `v4l2_create_mmap` (v4l2-input.c:235):
query the buffer, record length, map it; on QUERYBUF failure or a
`MAP_FAILED` result return `-1` immediately, leaving the slots filled
so far untouched. -/
def mmapLoop (env : MmapEnv) : List Nat → List BufferData → List BufferData × Bool × List Act
  | [], buf => (buf, true, [])
  | i :: rest, buf =>
    match env.querybuf i with
    | none => (buf, false, [Act.querybuf i])
    | some len =>
      if env.mmapOk i then
        let r := mmapLoop env rest (buf.set i ⟨len, Ptr.mapped i⟩)
        (r.1, r.2.1, Act.querybuf i :: Act.mmapBuf i :: r.2.2)
      else
        (buf.set i ⟨len, Ptr.mapFailed⟩, false, [Act.querybuf i, Act.mmapBuf i])

/-- Embeds `v4l2_create_mmap` (v4l2-input.c:214).  Returns the updated
data, the success flag (`true` = the C function returned 0) and the
trace of calls.  Note: `buf_count` and the `bzalloc`ed array are
installed before the mapping loop, and a mid-loop failure returns
without unwinding the mappings already made. -/
def v4l2_create_mmap (env : MmapEnv) (data : V4l2Data) : V4l2Data × Bool × List Act :=
  match env.reqbufs with
  | none => (data, false, [Act.reqbufs])
  | some count =>
    if count < 2 then (data, false, [Act.reqbufs])
    else
      let d := { data with buf_count := count,
                           buf := List.replicate count ⟨0, Ptr.null⟩ }
      let r := mmapLoop env (List.range count) d.buf
      ({ d with buf := r.1 }, r.2.1, Act.reqbufs :: r.2.2)

/-- Embeds `v4l2_destroy_mmap` (v4l2-input.c:264): munmap every slot
below `buf_count` whose `start` is not `MAP_FAILED` (a never-mapped
NULL slot also gets a munmap call, as in the C), then zero the count
and free the array. -/
def v4l2_destroy_mmap (data : V4l2Data) : V4l2Data × List Act :=
  let acts := (List.range data.buf_count).filterMap fun i =>
    match data.buf.get? i with
    | some b => if b.start = Ptr.mapFailed then none else some (Act.munmapBuf i b.length)
    | none => none
  ({ data with buf_count := 0, buf := [] }, acts ++ [Act.freeBufArray])

/-! ## Session controller: terminate -/

/-- Embeds `v4l2_terminate` (v4l2-input.c:690).  Faithful to the C: the
`thread` field is tested against 0 but never cleared after the join;
`buf_count` guards the unmap; `dev` is reset to `-1` after the close. -/
def v4l2_terminate (data : V4l2Data) : V4l2Data × List Act :=
  let e1 : List Act :=
    if data.thread ≠ 0 then
      [Act.eventSignal, Act.threadJoin data.thread, Act.eventDestroy]
    else []
  let p2 : V4l2Data × List Act :=
    if data.buf_count ≠ 0 then v4l2_destroy_mmap data else (data, [])
  let p3 : V4l2Data × List Act :=
    if p2.1.dev ≠ -1 then ({ p2.1 with dev := -1 }, [Act.closeDev p2.1.dev])
    else (p2.1, [])
  (p3.1, e1 ++ p2.2 ++ p3.2)

/-! ## Plane layout -/

/-- `MAX_AV_PLANES` from obs. -/
def MAX_AV_PLANES : Nat := 8

/-- The part of `struct source_frame` that `v4l2_prep_obs_frame` fills
in: dimensions, mapped color format, per-plane linesizes, plus the
plane byte offsets the thread later adds to the buffer start address.
The color-space parameters written by `video_format_get_parameters`
carry no information relevant to the claims and are omitted. -/
structure PreppedFrame where
  width : Int
  height : Int
  format : VideoFormat
  linesize : List Nat
  plane_offsets : List Nat
  deriving DecidableEq, Repr

/-- Embeds `v4l2_prep_obs_frame` (v4l2-input.c:286): both arrays are
zeroed first, then the switch on the negotiated pixel format fills the
used slots.  Offsets are `size_t` products of the unsigned linesize and
the (positive) height, hence plain `Nat` arithmetic; `* 5 / 4` is the
C integer division. -/
def v4l2_prep_obs_frame (data : V4l2Data) : PreppedFrame :=
  let zeros : List Nat := List.replicate MAX_AV_PLANES 0
  let h : Nat := data.height.toNat
  let base : PreppedFrame :=
    { width := data.width, height := data.height,
      format := v4l2_to_obs_video_format data.pixfmt,
      linesize := zeros, plane_offsets := zeros }
  if data.pixfmt = V4L2_PIX_FMT_NV12 then
    { base with
        linesize := (zeros.set 0 data.linesize).set 1 (data.linesize / 2),
        plane_offsets := zeros.set 1 (data.linesize * h) }
  else if data.pixfmt = V4L2_PIX_FMT_YVU420 then
    { base with
        linesize := ((zeros.set 0 data.linesize).set 1 (data.linesize / 2)).set 2
          (data.linesize / 2),
        plane_offsets := (zeros.set 1 (data.linesize * h * 5 / 4)).set 2
          (data.linesize * h) }
  else if data.pixfmt = V4L2_PIX_FMT_YUV420 then
    { base with
        linesize := ((zeros.set 0 data.linesize).set 1 (data.linesize / 2)).set 2
          (data.linesize / 2),
        plane_offsets := (zeros.set 1 (data.linesize * h)).set 2
          (data.linesize * h * 5 / 4) }
  else
    { base with linesize := zeros.set 0 data.linesize }

/-! ## Device enumeration -/

/-- One directory entry of /sys/class/video4linux together with the
answers the candidate device gives while being probed: whether
`v4l2_open` succeeds, whether QUERYCAP succeeds, whether the
capabilities include `V4L2_CAP_VIDEO_CAPTURE`, and the reported card
name. -/
structure Candidate where
  name : String
  isDir : Bool
  opens : Bool
  querycapOk : Bool
  captureCap : Bool
  card : String
  deriving DecidableEq, Repr

/-- The readdir loop of `v4l2_device_list` (v4l2-input.c:428).
`settings = none` models the NULL settings pointer the properties path
passes (obs data setters no-op on NULL); `first` is the local flag that
makes only the first capture-capable device overwrite `device_id`.
Candidates that fail to open are skipped without a close; every
successfully opened candidate is closed before the next iteration. -/
def v4l2_device_list_go : List Candidate → Option Settings → Bool →
    List (String × String) × Option Settings × List Act
  | [], settings, _ => ([], settings, [])
  | c :: rest, settings, first =>
    if c.isDir then v4l2_device_list_go rest settings first
    else
      let path := "/dev/" ++ c.name
      if !c.opens then
        let r := v4l2_device_list_go rest settings first
        (r.1, r.2.1, Act.probeOpenFail path :: r.2.2)
      else if !c.querycapOk then
        let r := v4l2_device_list_go rest settings first
        (r.1, r.2.1, Act.probeOpen path :: Act.probeClose path :: r.2.2)
      else if c.captureCap then
        let settingsNew : Option Settings :=
          if first then
            match settings with
            | some s => some { s with device_id := path }
            | none => none
          else settings
        let r := v4l2_device_list_go rest settingsNew (if first then false else first)
        ((c.card, path) :: r.1, r.2.1, Act.probeOpen path :: Act.probeClose path :: r.2.2)
      else
        let r := v4l2_device_list_go rest settings first
        (r.1, r.2.1, Act.probeOpen path :: Act.probeClose path :: r.2.2)

/-- Embeds `v4l2_device_list` (v4l2-input.c:411): walk the candidate
entries with the `first` flag initially true.  The returned list is the
property list built via `obs_property_list_add_string`. -/
def v4l2_device_list (cands : List Candidate) (settings : Option Settings) :
    List (String × String) × Option Settings × List Act :=
  v4l2_device_list_go cands settings true

/-- The path of the first non-directory candidate that opens, answers
QUERYCAP and advertises capture capability; used to state what
`v4l2_device_list` writes into the settings. -/
def firstCapturePath : List Candidate → Option String
  | [] => none
  | c :: rest =>
    if !c.isDir && c.opens && c.querycapOk && c.captureCap then
      some ("/dev/" ++ c.name)
    else firstCapturePath rest

/-! ## Session controller: init and update -/

/-- Driver/OS outcomes for one `v4l2_init` run: the fd `v4l2_open`
returns (`none` = -1), whether S_FMT succeeds and the negotiated
format/stride it reports back, whether S_PARM succeeds, the buffer
mapping outcomes, and whether `os_event_init` / `pthread_create`
succeed (`threadId = some t` with `t ≠ 0` being the created thread). -/
structure InitEnv where
  openFd : Option Int
  sfmtOk : Bool
  fmtWidth : Int
  fmtHeight : Int
  fmtPixFmt : Int
  fmtBytesPerLine : Nat
  sparmOk : Bool
  mmapEnv : MmapEnv
  eventInitOk : Bool
  threadId : Option Nat

/-- Embeds `v4l2_init` (v4l2-input.c:731).  Every failing step jumps to
the `fail` label, which runs `v4l2_terminate` on the state accumulated
so far.  On S_FMT success the negotiated width/height/pixelformat/
bytesperline are stored (never the requested ones). -/
def v4l2_init (env : InitEnv) (data : V4l2Data) : V4l2Data × List Act :=
  let openAct := Act.openDev (data.set_device.getD ("" : String))
  match env.openFd with
  | none =>
    let t := v4l2_terminate { data with dev := -1 }
    (t.1, openAct :: t.2)
  | some fd =>
    let d1 := { data with dev := fd }
    if !env.sfmtOk then
      let t := v4l2_terminate d1
      (t.1, openAct :: Act.setFmt :: t.2)
    else
      let d2 := { d1 with width := env.fmtWidth, height := env.fmtHeight,
                          pixfmt := env.fmtPixFmt, linesize := env.fmtBytesPerLine }
      if !env.sparmOk then
        let t := v4l2_terminate d2
        (t.1, openAct :: Act.setFmt :: Act.setParm :: t.2)
      else
        let m := v4l2_create_mmap env.mmapEnv d2
        if !m.2.1 then
          let t := v4l2_terminate m.1
          (t.1, openAct :: Act.setFmt :: Act.setParm :: m.2.2 ++ t.2)
        else if !env.eventInitOk then
          let t := v4l2_terminate m.1
          (t.1, openAct :: Act.setFmt :: Act.setParm :: m.2.2 ++ Act.eventInit :: t.2)
        else
          match env.threadId with
          | none =>
            let t := v4l2_terminate m.1
            (t.1, openAct :: Act.setFmt :: Act.setParm :: m.2.2 ++
              Act.eventInit :: Act.threadCreate 0 :: t.2)
          | some tid =>
            ({ m.1 with thread := tid },
             openAct :: Act.setFmt :: Act.setParm :: m.2.2 ++
               [Act.eventInit, Act.threadCreate tid])

/-- The four sequential compare-and-assign blocks of `v4l2_update`
(v4l2-input.c:810): each block overwrites the stored field and raises
the `restart` flag when the incoming value differs; a NULL stored
device also forces a restart. -/
def updateFields (data : V4l2Data) (s : Settings) : V4l2Data × Bool :=
  let p1 : V4l2Data × Bool :=
    match data.set_device with
    | none => ({ data with set_device := some s.device_id }, true)
    | some old =>
      if old = s.device_id then (data, false)
      else ({ data with set_device := some s.device_id }, true)
  let p2 : V4l2Data × Bool :=
    if p1.1.set_pixfmt = s.pixelformat then p1
    else ({ p1.1 with set_pixfmt := s.pixelformat }, true)
  let p3 : V4l2Data × Bool :=
    if p2.1.set_res = s.resolution then p2
    else ({ p2.1 with set_res := s.resolution }, true)
  let p4 : V4l2Data × Bool :=
    if p3.1.set_fps = s.framerate then p3
    else ({ p3.1 with set_fps := s.framerate }, true)
  p4

/-- Embeds `v4l2_update` (v4l2-input.c:798).  A blank `device_id`
first runs the device enumeration with a NULL property list, which may
substitute a default into the settings; the (possibly substituted)
settings are then compared field by field, and if anything changed the
session is torn down and re-initialised. -/
def v4l2_update (cands : List Candidate) (env : InitEnv) (data : V4l2Data)
    (settings : Settings) : V4l2Data × Settings × List Act :=
  let enum : Settings × List Act :=
    if settings.device_id = "" then
      let r := v4l2_device_list cands (some settings)
      (r.2.1.getD settings, r.2.2)
    else (settings, [])
  let u := updateFields data enum.1
  if u.2 then
    let t := v4l2_terminate u.1
    let i := v4l2_init env t.1
    (i.1, enum.1, enum.2 ++ t.2 ++ i.2)
  else (u.1, enum.1, enum.2)

/-- Field-by-field equality of the stored configuration with incoming
settings: exactly the condition under which `v4l2_update` leaves the
`restart` flag unset. -/
def configEq (d : V4l2Data) (s : Settings) : Prop :=
  d.set_device = some s.device_id ∧ d.set_pixfmt = s.pixelformat ∧
    d.set_res = s.resolution ∧ d.set_fps = s.framerate

instance (d : V4l2Data) (s : Settings) : Decidable (configEq d s) := by
  unfold configEq
  infer_instance

/-- The four `set_` fields of the store, bundled for the preservation
lemmas. -/
def setFields (d : V4l2Data) : Option String × Int × Int × Int :=
  (d.set_device, d.set_pixfmt, d.set_res, d.set_fps)

/-! ## Capture thread -/

/-- Outcome of one `select` call in the thread loop: an error (with or
without `errno == EINTR`), a timeout, or readable data. -/
inductive SelectRes
  | err (eintr : Bool)
  | timeout
  | ready
  deriving DecidableEq, Repr

/-- Outcome of one DQBUF ioctl: an error (with or without
`errno == EAGAIN`), or a dequeued buffer index with its kernel
timestamp (already converted to nanoseconds). -/
inductive DqRes
  | err (eagain : Bool)
  | ok (index : Nat) (ts : Nat)
  deriving DecidableEq, Repr

/-- The external inputs consumed by one iteration of the thread loop:
whether the stop event is observed as signalled by `os_event_try` at
the top of the iteration, and the select/DQBUF/QBUF outcomes should the
iteration get that far. -/
structure IterInput where
  eventSet : Bool
  sel : SelectRes
  dq : DqRes
  qbufOk : Bool
  deriving DecidableEq, Repr

/-- Startup outcomes for `v4l2_start_capture`: whether queueing buffer
`i` succeeds and whether STREAMON succeeds. -/
structure StartEnv where
  qbufOk : Nat → Bool
  streamOnOk : Bool

/-- The initial QBUF loop of `v4l2_start_capture` (v4l2-input.c:171):
queue each buffer in order, aborting on the first failure. -/
def v4l2_queue_bufs (env : StartEnv) : List Nat → List Act × Bool
  | [] => ([], true)
  | i :: rest =>
    if env.qbufOk i then
      let r := v4l2_queue_bufs env rest
      (Act.qbuf i :: r.1, r.2)
    else ([Act.qbuf i], false)

/-- Embeds `v4l2_start_capture` (v4l2-input.c:167): queue every buffer,
then STREAMON; either failure makes the whole call fail. -/
def v4l2_start_capture (env : StartEnv) (bufCount : Nat) : List Act × Bool :=
  let q := v4l2_queue_bufs env (List.range bufCount)
  if q.2 then (q.1 ++ [Act.streamOn], env.streamOnOk)
  else (q.1, false)

/-- The `while (os_event_try(data->event) == EAGAIN)` loop of
`v4l2_thread` (v4l2-input.c:349), one `IterInput` per iteration.
Returns the emitted calls, whether the loop has exited (false = the
supplied inputs ran out while the loop was still going), and the final
frame counter.  `tv` is reset to 1 second before every `select`, hence
the constant timeout argument; a dequeued frame is delivered before the
requeue attempt, and a failed requeue still follows the delivery, as in
the C. -/
def v4l2_thread_loop (frames : Nat) : List IterInput → List Act × Bool × Nat
  | [] => ([], false, frames)
  | it :: rest =>
    if it.eventSet then ([], true, frames)
    else
      match it.sel with
      | SelectRes.err eintr =>
        if eintr then
          let r := v4l2_thread_loop frames rest
          (Act.selectCall 1 :: r.1, r.2)
        else ([Act.selectCall 1], true, frames)
      | SelectRes.timeout =>
        let r := v4l2_thread_loop frames rest
        (Act.selectCall 1 :: r.1, r.2)
      | SelectRes.ready =>
        match it.dq with
        | DqRes.err eagain =>
          if eagain then
            let r := v4l2_thread_loop frames rest
            (Act.selectCall 1 :: Act.dqbufCall :: r.1, r.2)
          else ([Act.selectCall 1, Act.dqbufCall], true, frames)
        | DqRes.ok idx ts =>
          if it.qbufOk then
            let r := v4l2_thread_loop (frames + 1) rest
            (Act.selectCall 1 :: Act.dqbufCall :: Act.deliverFrame idx ts ::
              Act.qbuf idx :: r.1, r.2)
          else
            ([Act.selectCall 1, Act.dqbufCall, Act.deliverFrame idx ts,
              Act.qbuf idx], true, frames)

/-- Embeds `v4l2_thread` (v4l2-input.c:328): a startup failure jumps
straight to the `exit` label; otherwise the loop runs; the `exit` label
runs `v4l2_stop_capture`, which issues STREAMOFF exactly once
regardless of the ioctl outcome.  The boolean result is whether the
thread function has returned (false = the loop is still running after
the supplied inputs). -/
def v4l2_thread (env : StartEnv) (bufCount : Nat) (inputs : List IterInput) :
    List Act × Bool :=
  if (v4l2_start_capture env bufCount).2 then
    if (v4l2_thread_loop 0 inputs).2.1 then
      ((v4l2_start_capture env bufCount).1 ++ (v4l2_thread_loop 0 inputs).1 ++
        [Act.streamOff], true)
    else ((v4l2_start_capture env bufCount).1 ++ (v4l2_thread_loop 0 inputs).1, false)
  else ((v4l2_start_capture env bufCount).1 ++ [Act.streamOff], true)

/-- Recognises `selectCall` acts. -/
def isSelect (a : Act) : Bool :=
  match a with
  | Act.selectCall _ => true
  | _ => false

/-- Recognises `streamOff` acts. -/
def isStreamOff (a : Act) : Bool :=
  match a with
  | Act.streamOff => true
  | _ => false

/-- Recognises frame deliveries to the sink. -/
def isDeliver (a : Act) : Bool :=
  match a with
  | Act.deliverFrame _ _ => true
  | _ => false

/-- Recognises the enumeration-only probe open/close acts of
`v4l2_device_list`. -/
def isProbe (a : Act) : Bool :=
  match a with
  | Act.probeOpen _ => true
  | Act.probeOpenFail _ => true
  | Act.probeClose _ => true
  | _ => false

/-! ## Concrete instances used by the witnesses and counterexamples -/

/-- A freshly `bzalloc`ed `struct v4l2_data` as `v4l2_create` builds it
(dev already set to -1). -/
def freshData : V4l2Data :=
  { thread := 0, set_device := none, set_pixfmt := 0, set_res := 0, set_fps := 0,
    dev := -1, frames := 0, width := 0, height := 0, pixfmt := 0, linesize := 0,
    buf_count := 0, buf := [] }

/-- Mapping environment where the driver grants 4 buffers and mapping
buffer index 2 fails after indices 0 and 1 were mapped. -/
def envC1 : MmapEnv :=
  { reqbufs := some 4, querybuf := fun _ => some 1024,
    mmapOk := fun i => decide (i < 2) }

/-- A session state with a live capture thread (id 7), two mapped
buffers and an open device, as it looks just before teardown. -/
def liveData : V4l2Data :=
  { freshData with
    thread := 7, set_device := some ("/dev/video0" : String), dev := 3,
    buf_count := 2, buf := [⟨100, Ptr.mapped 0⟩, ⟨100, Ptr.mapped 1⟩] }

/-- Session data negotiated to 4:2:0 planar YUV420 at 640x480 with a
640-byte stride. -/
def d420 : V4l2Data :=
  { freshData with
    width := 640, height := 480, linesize := 640, pixfmt := V4L2_PIX_FMT_YUV420 }

/-- Same as `d420` but with the swapped-chroma YVU420 variant. -/
def d420v : V4l2Data :=
  { d420 with pixfmt := V4L2_PIX_FMT_YVU420 }

/-- An enumeration candidate that opens fine and advertises capture
capability. -/
def candA : Candidate :=
  { name := "video0", isDir := false, opens := true, querycapOk := true,
    captureCap := true, card := "Cam A" }

/-- Settings that already carry a configured device id. -/
def s5 : Settings :=
  { device_id := "/dev/video5", pixelformat := 0, resolution := 0, framerate := 0 }

/-- An init environment in which `v4l2_open` itself fails, so
initialization fails at the first step. -/
def initEnvFail : InitEnv :=
  { openFd := none, sfmtOk := false, fmtWidth := 0, fmtHeight := 0, fmtPixFmt := 0,
    fmtBytesPerLine := 0, sparmOk := false, mmapEnv := envC1, eventInitOk := false,
    threadId := none }

/-- Stored configuration matching `s5` field by field. -/
def dEqS5 : V4l2Data :=
  { freshData with set_device := some ("/dev/video5" : String) }

/-- Settings equal to `s5` except for the frame rate. -/
def s5rate : Settings :=
  { s5 with framerate := pack_tuple 1 60 }

/-- Thread startup environment in which everything succeeds. -/
def envThreadOk : StartEnv :=
  { qbufOk := fun _ => true, streamOnOk := true }

/-- Thread startup environment in which STREAMON fails. -/
def envThreadFail : StartEnv :=
  { qbufOk := fun _ => true, streamOnOk := false }

/-- A thread-loop schedule: one select timeout with the stop event not
yet observed, then the event is observed set. -/
def inputsC4 : List IterInput :=
  [⟨false, SelectRes.timeout, DqRes.err true, true⟩,
   ⟨true, SelectRes.timeout, DqRes.err true, true⟩,
   ⟨true, SelectRes.timeout, DqRes.err true, true⟩]

/-! ## Packed-tuple codec: claim C5 -/

/-- Wrapping to 32 bits is the identity on in-range values. -/
theorem wrap32_eq_self (x : Int) (h1 : -2147483648 ≤ x) (h2 : x < 2147483648) :
    wrap32 x = x := by
  unfold wrap32
  omega

/-- Claim C5, counterexample: the round trip fails for values that are
in the signed 16-bit range but negative (`b = -1` comes back as 65535),
and for values in the unsigned 16-bit range above 2^15 (`a = 40000`
comes back as -25536 through the 32-bit wrap and arithmetic shift), so
no uniform "16-bit range" for both components makes the claim true as
stated. -/
theorem claim_C5_counterexample :
    unpack_tuple (pack_tuple 0 (-1)) ≠ (0, -1) ∧
      unpack_tuple (pack_tuple 40000 0) ≠ (40000, 0) := by
  decide

/-- Claim C5, amended: `unpack_tuple` inverts `pack_tuple` exactly when
the high component is in the signed 16-bit range and the low component
is in the unsigned 16-bit range; both functions are total. -/
theorem claim_C5_roundtrip (a b : Int) (ha1 : -32768 ≤ a) (ha2 : a < 32768)
    (hb1 : 0 ≤ b) (hb2 : b < 65536) :
    unpack_tuple (pack_tuple a b) = (a, b) := by
  unfold pack_tuple unpack_tuple
  have hb : b % 65536 = b := Int.emod_eq_of_lt hb1 hb2
  rw [hb, wrap32_eq_self (a * 65536 + b) (by omega) (by omega)]
  have hd : (a * 65536 + b) / 65536 = a := by omega
  have hm : (a * 65536 + b) % 65536 = b := by omega
  rw [hd, hm]

/-- Claim C5, witness: the 640x480 resolution tuple round-trips. -/
theorem claim_C5_witness : unpack_tuple (pack_tuple 640 480) = (640, 480) :=
  claim_C5_roundtrip 640 480 (by decide) (by decide) (by decide) (by decide)

/-! ## Format mapper: claim C8 -/

/-- Claim C8, counterexample: three distinct 4:2:2 packed fourcc codes
(YVYU, YUYV and UYVY) are all mapped to a non-none format, so a
recognized set containing only "the two 4:2:2 packed varieties" cannot
account for the mapper: whichever two are chosen, the third is "another
id" that still maps to a non-none value. -/
theorem claim_C8_counterexample :
    v4l2_to_obs_video_format V4L2_PIX_FMT_YVYU ≠ VideoFormat.none ∧
      v4l2_to_obs_video_format V4L2_PIX_FMT_YUYV ≠ VideoFormat.none ∧
      v4l2_to_obs_video_format V4L2_PIX_FMT_UYVY ≠ VideoFormat.none ∧
      V4L2_PIX_FMT_YVYU ≠ V4L2_PIX_FMT_YUYV ∧
      V4L2_PIX_FMT_YVYU ≠ V4L2_PIX_FMT_UYVY ∧
      V4L2_PIX_FMT_YUYV ≠ V4L2_PIX_FMT_UYVY := by
  decide

/-- Claim C8, amended: the mapper is pure and total, returns a
non-none format exactly on its six recognized fourcc codes — three
4:2:2 packed varieties (YVYU, YUYV, UYVY), the 4:2:0 semi-planar NV12
and the two 4:2:0 planar variants (YUV420, YVU420) — and the none
sentinel on every other id. -/
theorem claim_C8_total_lookup (f : Int) :
    v4l2_to_obs_video_format f ≠ VideoFormat.none ↔
      (f = V4L2_PIX_FMT_YVYU ∨ f = V4L2_PIX_FMT_YUYV ∨ f = V4L2_PIX_FMT_UYVY ∨
        f = V4L2_PIX_FMT_NV12 ∨ f = V4L2_PIX_FMT_YUV420 ∨ f = V4L2_PIX_FMT_YVU420) := by
  unfold v4l2_to_obs_video_format
  split_ifs with h1 h2 h3 h4 h5 h6 <;> simp_all

/-! ## Plane layout: claim C7 -/

/-- Claim C7: for 4:2:0 planar 640x480 with stride 640, the luma plane
sits at offset 0 with stride 640, both chroma planes have stride 320,
and the first chroma plane is at byte offset 640*480 = 307200 for
YUV420 and at 640*480*5/4 = 384000 for YVU420, the other chroma plane
taking the remaining offset; both chroma planes are present (non-zero
stride) in the 3-plane formats. -/
theorem claim_C7_plane_layout :
    (v4l2_prep_obs_frame d420).plane_offsets = [0, 307200, 384000, 0, 0, 0, 0, 0] ∧
      (v4l2_prep_obs_frame d420).linesize = [640, 320, 320, 0, 0, 0, 0, 0] ∧
      (v4l2_prep_obs_frame d420v).plane_offsets = [0, 384000, 307200, 0, 0, 0, 0, 0] ∧
      (v4l2_prep_obs_frame d420v).linesize = [640, 320, 320, 0, 0, 0, 0, 0] := by
  decide

/-! ## Buffer pool: claim C1 -/

/-- The mapping loop only overwrites slots, so it preserves the length
of the buffer array. -/
theorem mmapLoop_length (env : MmapEnv) (l : List Nat) (buf : List BufferData) :
    (mmapLoop env l buf).1.length = buf.length := by
  induction l generalizing buf with
  | nil => rfl
  | cons i rest ih =>
    unfold mmapLoop
    cases env.querybuf i with
    | none => rfl
    | some len =>
      by_cases h : env.mmapOk i <;> simp [h, ih, List.length_set]

/-- After `v4l2_create_mmap` on a fresh pool state, the stored
`buf_count` equals the length of the buffer array. -/
theorem create_mmap_length (env : MmapEnv) (data : V4l2Data)
    (hbuf : data.buf = []) (hcount : data.buf_count = 0) :
    (v4l2_create_mmap env data).1.buf.length = (v4l2_create_mmap env data).1.buf_count := by
  unfold v4l2_create_mmap
  cases hr : env.reqbufs with
  | none => simp [hbuf, hcount]
  | some count =>
    by_cases hc : count < 2
    · simp [hc, hbuf, hcount]
    · simp [hc, mmapLoop_length]

/-- Every slot below `buf_count` whose pointer is not the `MAP_FAILED`
sentinel gets a munmap call from `v4l2_destroy_mmap`. -/
theorem destroy_mmap_mem (d : V4l2Data) (i : Nat) (b : BufferData)
    (hget : d.buf.get? i = some b) (hlt : i < d.buf_count)
    (hne : b.start ≠ Ptr.mapFailed) :
    Act.munmapBuf i b.length ∈ (v4l2_destroy_mmap d).2 := by
  unfold v4l2_destroy_mmap
  apply List.mem_append_left
  apply List.mem_filterMap.mpr
  exact ⟨i, List.mem_range.mpr hlt, by rw [hget]; simp [hne]⟩

/-- Claim C1, counterexample: with 4 granted buffers and the mapping of
index 2 failing, `v4l2_create_mmap` returns the error but leaves the 2
buffers mapped earlier in the call still mapped — the rollback the
claim describes does not happen inside the operation. -/
theorem claim_C1_counterexample :
    (v4l2_create_mmap envC1 freshData).2.1 = false ∧
      mappedCount (v4l2_create_mmap envC1 freshData).1 = 2 := by
  decide

/-- Claim C1, amended: when `v4l2_create_mmap` fails mid-way, the
still-mapped buffers are released not before the error return but by
the caller's failure path (`v4l2_init` jumps to `fail`, which runs
`v4l2_terminate`, which calls `v4l2_destroy_mmap` because `buf_count`
is non-zero): after that cleanup zero mapped buffers remain, the pool
is freed, and every buffer that had been mapped received a munmap
call. -/
theorem claim_C1_rollback (env : MmapEnv) (data : V4l2Data)
    (hbuf : data.buf = []) (hcount : data.buf_count = 0)
    (hfail : (v4l2_create_mmap env data).2.1 = false) :
    mappedCount (v4l2_destroy_mmap (v4l2_create_mmap env data).1).1 = 0 ∧
      (v4l2_destroy_mmap (v4l2_create_mmap env data).1).1.buf_count = 0 ∧
      ∀ i b, (v4l2_create_mmap env data).1.buf.get? i = some b →
        isMappedEntry b = true →
        Act.munmapBuf i b.length ∈ (v4l2_destroy_mmap (v4l2_create_mmap env data).1).2 := by
  refine ⟨by simp [v4l2_destroy_mmap, mappedCount], by simp [v4l2_destroy_mmap], ?_⟩
  intro i b hget hmap
  have hlen : i < (v4l2_create_mmap env data).1.buf.length := by
    have := List.get?_eq_some.mp hget
    exact this.1
  apply destroy_mmap_mem _ _ _ hget
  · rw [← create_mmap_length env data hbuf hcount]
    exact hlen
  · intro hcontra
    unfold isMappedEntry at hmap
    rw [hcontra] at hmap
    simp at hmap

/-- Claim C1, witness: in the failed 4-buffer run, the caller-side
cleanup leaves zero mapped buffers and did munmap the buffer mapped at
index 0. -/
theorem claim_C1_witness :
    mappedCount (v4l2_destroy_mmap (v4l2_create_mmap envC1 freshData).1).1 = 0 ∧
      Act.munmapBuf 0 1024 ∈ (v4l2_destroy_mmap (v4l2_create_mmap envC1 freshData).1).2 := by
  have h := claim_C1_rollback envC1 freshData rfl rfl (by decide)
  exact ⟨h.1, h.2.2 0 ⟨1024, Ptr.mapped 0⟩ (by decide) (by decide)⟩

/-! ## Session teardown: claim C2 -/

/-- Claim C2: `v4l2_terminate` is not idempotent.  Evaluating it on the
state left by a completed teardown of a live session shows that the
second call performs no second unmap/free (`buf_count` was reset) and
no second close (`dev` was reset to -1), but it does signal the
already-destroyed event and join the already-joined thread id 7 again,
because the C code never resets `data->thread` after the join — the
one guard missing from an otherwise systematically guarded teardown. -/
theorem claim_C2_double_teardown :
    (v4l2_terminate liveData).1.dev = -1 ∧
      (v4l2_terminate liveData).1.buf_count = 0 ∧
      mappedCount (v4l2_terminate liveData).1 = 0 ∧
      (v4l2_terminate (v4l2_terminate liveData).1).2 =
        [Act.eventSignal, Act.threadJoin 7, Act.eventDestroy] := by
  decide

/-! ## Device enumeration: claim C6 -/

/-- Once the `first` flag has been consumed, the enumeration loop never
writes to the settings again. -/
theorem devlist_go_settings_false (cands : List Candidate) (so : Option Settings) :
    (v4l2_device_list_go cands so false).2.1 = so := by
  induction cands generalizing so with
  | nil => rfl
  | cons c rest ih =>
    rcases c with ⟨name, isDir, opens, querycapOk, captureCap, card⟩
    cases isDir <;> cases opens <;> cases querycapOk <;> cases captureCap <;>
      simp [v4l2_device_list_go, ih]

/-- With the `first` flag set, the enumeration loop stores the path of
the first capture-capable candidate into `device_id` — unconditionally,
whatever id the settings already carried. -/
theorem devlist_go_settings_true (cands : List Candidate) (s : Settings) :
    (v4l2_device_list_go cands (some s) true).2.1 =
      some { s with device_id := (firstCapturePath cands).getD s.device_id } := by
  induction cands with
  | nil => simp [v4l2_device_list_go, firstCapturePath]
  | cons c rest ih =>
    rcases c with ⟨name, isDir, opens, querycapOk, captureCap, card⟩
    cases isDir <;> cases opens <;> cases querycapOk <;> cases captureCap <;>
      simp [v4l2_device_list_go, firstCapturePath, ih, devlist_go_settings_false]

/-- The property list built by the enumeration loop contains exactly
the capture-capable candidates that opened and answered QUERYCAP, in
order, as (card, path) pairs — every other candidate is skipped and
the loop never fails. -/
theorem devlist_go_list (cands : List Candidate) (so : Option Settings) (first : Bool) :
    (v4l2_device_list_go cands so first).1 =
      (cands.filter fun c => !c.isDir && c.opens && c.querycapOk && c.captureCap).map
        fun c => (c.card, "/dev/" ++ c.name) := by
  induction cands generalizing so first with
  | nil => rfl
  | cons c rest ih =>
    rcases c with ⟨name, isDir, opens, querycapOk, captureCap, card⟩
    cases isDir <;> cases opens <;> cases querycapOk <;> cases captureCap <;>
      simp [v4l2_device_list_go, ih]

/-- `v4l2_destroy_mmap` does not touch the device handle. -/
theorem destroy_mmap_dev (d : V4l2Data) : (v4l2_destroy_mmap d).1.dev = d.dev := rfl

/-- Acts emitted by `v4l2_destroy_mmap` are never enumeration probes. -/
theorem destroy_mmap_no_probe (d : V4l2Data) :
    ∀ a ∈ (v4l2_destroy_mmap d).2, isProbe a = false := by
  intro a ha
  unfold v4l2_destroy_mmap at ha
  rcases List.mem_append.mp ha with h | h
  · obtain ⟨i, _, hf⟩ := List.mem_filterMap.mp h
    rcases hg : d.buf.get? i with _ | b <;> rw [hg] at hf
    · simp at hf
    · by_cases hb : b.start = Ptr.mapFailed
      · simp [hb] at hf
      · simp [hb] at hf
        rw [← hf]
        rfl
  · simp at h
    rw [h]
    rfl

/-- The destroy trace contains no enumeration probe, count form. -/
theorem destroy_mmap_probe_count (d : V4l2Data) :
    (v4l2_destroy_mmap d).2.countP isProbe = 0 := by
  refine List.countP_eq_zero.mpr ?_
  intro a ha
  simp [destroy_mmap_no_probe d a ha]

/-- The teardown trace contains no enumeration probe. -/
theorem terminate_probe_count (d : V4l2Data) :
    (v4l2_terminate d).2.countP isProbe = 0 := by
  unfold v4l2_terminate
  by_cases h1 : d.thread = 0 <;> by_cases h2 : d.buf_count = 0 <;>
    by_cases h3 : d.dev = -1 <;>
      simp [h1, h2, h3, destroy_mmap_dev, destroy_mmap_probe_count,
        List.countP_append, List.countP_cons, isProbe]

/-- The mapping loop trace contains no enumeration probe. -/
theorem mmapLoop_probe_count (env : MmapEnv) (l : List Nat) (buf : List BufferData) :
    (mmapLoop env l buf).2.2.countP isProbe = 0 := by
  induction l generalizing buf with
  | nil => rfl
  | cons i rest ih =>
    unfold mmapLoop
    cases hq : env.querybuf i <;>
      by_cases hm : env.mmapOk i <;>
        simp [hq, hm, List.countP_cons, isProbe, ih]

/-- The buffer-pool creation trace contains no enumeration probe. -/
theorem create_mmap_probe_count (env : MmapEnv) (d : V4l2Data) :
    (v4l2_create_mmap env d).2.2.countP isProbe = 0 := by
  unfold v4l2_create_mmap
  cases hr : env.reqbufs with
  | none => rfl
  | some count =>
    by_cases hc : count < 2 <;>
      simp [hc, List.countP_cons, isProbe, mmapLoop_probe_count]

/-- The teardown trace contains no enumeration probe, membership
form. -/
theorem terminate_no_probe (d : V4l2Data) :
    ∀ a ∈ (v4l2_terminate d).2, isProbe a = false := by
  intro a ha
  have h := List.countP_eq_zero.mp (terminate_probe_count d) a ha
  simpa using h

/-- The buffer-pool creation trace contains no enumeration probe,
membership form. -/
theorem create_mmap_no_probe (env : MmapEnv) (d : V4l2Data) :
    ∀ a ∈ (v4l2_create_mmap env d).2.2, isProbe a = false := by
  intro a ha
  have h := List.countP_eq_zero.mp (create_mmap_probe_count env d) a ha
  simpa using h

/-- The init trace contains no enumeration probe. -/
theorem init_probe_count (env : InitEnv) (d : V4l2Data) :
    (v4l2_init env d).2.countP isProbe = 0 := by
  unfold v4l2_init
  cases ho : env.openFd <;> cases ht : env.threadId <;> simp only [ho, ht] <;>
    (try split_ifs) <;>
      simp [List.countP_append, List.countP_cons, isProbe,
        terminate_probe_count, create_mmap_probe_count,
        terminate_no_probe, create_mmap_no_probe]

/-- Claim C6, counterexample: a settings object that already carries
the configured device id "/dev/video5" is nevertheless overwritten by
`v4l2_device_list` with the first enumerated capture-capable device —
the function itself never checks whether a device is already
configured. -/
theorem claim_C6_counterexample :
    s5.device_id = "/dev/video5" ∧
      (v4l2_device_list [candA] (some s5)).2.1 =
        some { s5 with device_id := "/dev/video0" } := by
  decide

/-- Claim C6, amended: `v4l2_device_list` writes the first enumerated
capture-capable device into `device_id` unconditionally whenever a
settings object is supplied (the "only when no device is configured"
guard lives in the caller: `v4l2_update` invokes the enumeration only
when the supplied device id is blank, so with a non-blank id the
settings are untouched and no probe open/close happens); candidates
that fail to open, fail QUERYCAP or lack capture capability are
skipped silently — they are omitted from the returned list and the
enumeration never fails. -/
theorem claim_C6_enumeration :
    (∀ cands s, (v4l2_device_list cands (some s)).2.1 =
        some { s with device_id := (firstCapturePath cands).getD s.device_id }) ∧
      (∀ cands so, (v4l2_device_list cands so).1 =
          (cands.filter fun c => !c.isDir && c.opens && c.querycapOk && c.captureCap).map
            fun c => (c.card, "/dev/" ++ c.name)) ∧
      (∀ cands env data s, s.device_id ≠ "" →
          (v4l2_update cands env data s).2.1 = s ∧
            (v4l2_update cands env data s).2.2.countP isProbe = 0) := by
  refine ⟨fun cands s => devlist_go_settings_true cands s,
    fun cands so => devlist_go_list cands so true, ?_⟩
  intro cands env data s hdev
  unfold v4l2_update
  by_cases hu : (updateFields data s).2 <;>
    simp [hdev, hu, List.countP_append, terminate_probe_count, init_probe_count]

/-- Claim C6, witness: with a capture-capable candidate present but a
non-blank configured device id, `v4l2_update` leaves the settings
untouched and performs no probe. -/
theorem claim_C6_witness :
    (v4l2_update [candA] initEnvFail freshData s5).2.1 = s5 :=
  (claim_C6_enumeration.2.2 [candA] initEnvFail freshData s5 (by decide)).1

/-! ## Reconfiguration: claims C3 and C10 -/

/-- `v4l2_destroy_mmap` does not touch the stored configuration. -/
theorem destroy_mmap_setFields (d : V4l2Data) :
    setFields (v4l2_destroy_mmap d).1 = setFields d := rfl

/-- `v4l2_terminate` does not touch the stored configuration. -/
theorem terminate_setFields (d : V4l2Data) :
    setFields (v4l2_terminate d).1 = setFields d := by
  unfold v4l2_terminate
  by_cases h2 : d.buf_count = 0 <;> by_cases h3 : d.dev = -1 <;>
    simp [h2, h3, destroy_mmap_dev, destroy_mmap_setFields, setFields,
      v4l2_destroy_mmap]

/-- `mmapLoop` only writes the buffer array. -/
theorem create_mmap_setFields (env : MmapEnv) (d : V4l2Data) :
    setFields (v4l2_create_mmap env d).1 = setFields d := by
  unfold v4l2_create_mmap
  cases hr : env.reqbufs with
  | none => rfl
  | some count => by_cases hc : count < 2 <;> simp [hc, setFields]

/-- Componentwise reading of `terminate_setFields`. -/
theorem terminate_set_device (d : V4l2Data) :
    (v4l2_terminate d).1.set_device = d.set_device :=
  congrArg Prod.fst (terminate_setFields d)

/-- Componentwise reading of `terminate_setFields`. -/
theorem terminate_set_pixfmt (d : V4l2Data) :
    (v4l2_terminate d).1.set_pixfmt = d.set_pixfmt :=
  congrArg (fun p => p.2.1) (terminate_setFields d)

/-- Componentwise reading of `terminate_setFields`. -/
theorem terminate_set_res (d : V4l2Data) :
    (v4l2_terminate d).1.set_res = d.set_res :=
  congrArg (fun p => p.2.2.1) (terminate_setFields d)

/-- Componentwise reading of `terminate_setFields`. -/
theorem terminate_set_fps (d : V4l2Data) :
    (v4l2_terminate d).1.set_fps = d.set_fps :=
  congrArg (fun p => p.2.2.2) (terminate_setFields d)

/-- Componentwise reading of `create_mmap_setFields`. -/
theorem create_mmap_set_device (env : MmapEnv) (d : V4l2Data) :
    (v4l2_create_mmap env d).1.set_device = d.set_device :=
  congrArg Prod.fst (create_mmap_setFields env d)

/-- Componentwise reading of `create_mmap_setFields`. -/
theorem create_mmap_set_pixfmt (env : MmapEnv) (d : V4l2Data) :
    (v4l2_create_mmap env d).1.set_pixfmt = d.set_pixfmt :=
  congrArg (fun p => p.2.1) (create_mmap_setFields env d)

/-- Componentwise reading of `create_mmap_setFields`. -/
theorem create_mmap_set_res (env : MmapEnv) (d : V4l2Data) :
    (v4l2_create_mmap env d).1.set_res = d.set_res :=
  congrArg (fun p => p.2.2.1) (create_mmap_setFields env d)

/-- Componentwise reading of `create_mmap_setFields`. -/
theorem create_mmap_set_fps (env : MmapEnv) (d : V4l2Data) :
    (v4l2_create_mmap env d).1.set_fps = d.set_fps :=
  congrArg (fun p => p.2.2.2) (create_mmap_setFields env d)

/-- `v4l2_init` never modifies the stored configuration fields; it
only reads them. -/
theorem init_setFields (env : InitEnv) (d : V4l2Data) :
    setFields (v4l2_init env d).1 = setFields d := by
  unfold v4l2_init
  cases ho : env.openFd <;> cases ht : env.threadId <;> simp only [ho, ht] <;>
    (try split_ifs) <;>
      simp [setFields, terminate_set_device, terminate_set_pixfmt,
        terminate_set_res, terminate_set_fps, create_mmap_set_device,
        create_mmap_set_pixfmt, create_mmap_set_res, create_mmap_set_fps]

/-- The compare-and-assign cascade stores exactly the incoming
configuration. -/
theorem updateFields_setFields (d : V4l2Data) (s : Settings) :
    setFields (updateFields d s).1 =
      (some s.device_id, s.pixelformat, s.resolution, s.framerate) := by
  unfold updateFields
  rcases hd : d.set_device with _ | old <;>
    simp only [hd] <;> split_ifs <;> simp_all [setFields]

/-- If the incoming settings equal the stored configuration field by
field, the cascade changes nothing and leaves the restart flag
unset. -/
theorem updateFields_of_configEq (d : V4l2Data) (s : Settings) (h : configEq d s) :
    updateFields d s = (d, false) := by
  obtain ⟨h1, h2, h3, h4⟩ := h
  unfold updateFields
  simp [h1, h2, h3, h4]

/-- Conversely, an unset restart flag means every field matched. -/
theorem updateFields_false_configEq (d : V4l2Data) (s : Settings)
    (h : (updateFields d s).2 = false) : configEq d s := by
  unfold updateFields at h
  rcases hd : d.set_device with _ | old <;> simp only [hd] at h <;>
    split_ifs at h <;> simp_all [configEq]

/-- With a non-blank device id and an unchanged configuration,
`v4l2_update` is a complete no-op: same state, same settings, no
effectful call at all. -/
theorem update_noop (cands : List Candidate) (env : InitEnv) (d : V4l2Data)
    (s : Settings) (hdev : s.device_id ≠ "") (h : configEq d s) :
    v4l2_update cands env d s = (d, s, []) := by
  unfold v4l2_update
  simp [hdev, updateFields_of_configEq d s h]

/-- With a non-blank device id and any changed field, `v4l2_update`
commits the new fields and then runs exactly a full teardown followed
by a full init. -/
theorem update_restart (cands : List Candidate) (env : InitEnv) (d : V4l2Data)
    (s : Settings) (hdev : s.device_id ≠ "") (h : ¬ configEq d s) :
    v4l2_update cands env d s =
      ((v4l2_init env (v4l2_terminate (updateFields d s).1).1).1, s,
        (v4l2_terminate (updateFields d s).1).2 ++
          (v4l2_init env (v4l2_terminate (updateFields d s).1).1).2) := by
  have hflag : (updateFields d s).2 = true := by
    cases hf : (updateFields d s).2
    · exact absurd (updateFields_false_configEq d s hf) h
    · rfl
  unfold v4l2_update
  simp [hdev, hflag]

/-- Claim C3: `v4l2_update` compares the four fields {device id, pixel
format, packed resolution, packed rate} against the stored
configuration.  If all four are equal (device id non-blank, so the
auto-selection pre-step is not taken), nothing happens: no effectful
call of any kind, in particular no open/close/map/unmap and no
stop/restart.  If any one differs — the frame rate alone included, as
the witness instantiates — the effect trace is exactly a full
`v4l2_terminate` followed by a full `v4l2_init`. -/
theorem claim_C3_reconfigure (cands : List Candidate) (env : InitEnv)
    (data : V4l2Data) (settings : Settings) (hdev : settings.device_id ≠ "") :
    (configEq data settings →
        v4l2_update cands env data settings = (data, settings, [])) ∧
      (¬ configEq data settings →
        (v4l2_update cands env data settings).2.2 =
          (v4l2_terminate (updateFields data settings).1).2 ++
            (v4l2_init env (v4l2_terminate (updateFields data settings).1).1).2) :=
  ⟨fun h => update_noop cands env data settings hdev h,
   fun h => by rw [update_restart cands env data settings hdev h]⟩

/-- Claim C3, witness: an identical configuration (stored device
"/dev/video5", matching settings `s5`) produces the no-op, and a
change of the frame rate alone (`s5rate`) produces the full
teardown-plus-init trace. -/
theorem claim_C3_witness :
    v4l2_update [] initEnvFail dEqS5 s5 = (dEqS5, s5, []) ∧
      (v4l2_update [] initEnvFail dEqS5 s5rate).2.2 =
        (v4l2_terminate (updateFields dEqS5 s5rate).1).2 ++
          (v4l2_init initEnvFail (v4l2_terminate (updateFields dEqS5 s5rate).1).1).2 :=
  ⟨(claim_C3_reconfigure [] initEnvFail dEqS5 s5 (by decide)).1 (by decide),
   (claim_C3_reconfigure [] initEnvFail dEqS5 s5rate (by decide)).2 (by decide)⟩

/-- Claim C10: with a non-blank device id, `v4l2_update` stores the
incoming configuration fields whatever the outcome of the (possibly
failing) initialization; consequently a second `v4l2_update` carrying
the identical settings compares equal field by field, triggers no
teardown/restart and leaves the state — including a non-capturing
`dev = -1` left by a failed init — exactly as it was. -/
theorem claim_C10_commit_no_retry (cands : List Candidate) (env env2 : InitEnv)
    (data : V4l2Data) (settings : Settings) (hdev : settings.device_id ≠ "") :
    setFields (v4l2_update cands env data settings).1 =
      (some settings.device_id, settings.pixelformat, settings.resolution,
        settings.framerate) ∧
      v4l2_update cands env2 (v4l2_update cands env data settings).1 settings =
        ((v4l2_update cands env data settings).1, settings, []) ∧
      ((v4l2_update cands env data settings).1.dev = -1 →
        (v4l2_update cands env2 (v4l2_update cands env data settings).1 settings).1.dev
          = -1) := by
  have hset : setFields (v4l2_update cands env data settings).1 =
      (some settings.device_id, settings.pixelformat, settings.resolution,
        settings.framerate) := by
    by_cases h : configEq data settings
    · rw [update_noop cands env data settings hdev h]
      obtain ⟨h1, h2, h3, h4⟩ := h
      simp [setFields, h1, h2, h3, h4]
    · rw [update_restart cands env data settings hdev h]
      simp only [init_setFields, terminate_setFields, updateFields_setFields]
  have hcfg : configEq (v4l2_update cands env data settings).1 settings := by
    have hc := hset
    unfold setFields at hc
    simp only [Prod.mk.injEq] at hc
    exact ⟨hc.1, hc.2.1, hc.2.2.1, hc.2.2.2⟩
  refine ⟨hset, update_noop cands env2 _ settings hdev hcfg, ?_⟩
  intro hd
  rw [update_noop cands env2 _ settings hdev hcfg]
  exact hd

/-- Claim C10, witness: with `v4l2_open` failing, the first update
leaves a non-capturing state (`dev = -1`), and re-applying the very
same settings is a proven no-op. -/
theorem claim_C10_witness :
    (v4l2_update [] initEnvFail freshData s5).1.dev = -1 ∧
      v4l2_update [] initEnvFail (v4l2_update [] initEnvFail freshData s5).1 s5 =
        ((v4l2_update [] initEnvFail freshData s5).1, s5, []) :=
  ⟨by decide,
   (claim_C10_commit_no_retry [] initEnvFail initEnvFail freshData s5 (by decide)).2.1⟩

/-! ## Capture thread: claims C4 and C9 -/

/-- All acts of the startup QBUF loop are QBUF calls. -/
theorem queue_bufs_acts (env : StartEnv) (l : List Nat) :
    ∀ a ∈ (v4l2_queue_bufs env l).1, ∃ i, a = Act.qbuf i := by
  induction l with
  | nil => simp [v4l2_queue_bufs]
  | cons i rest ih =>
    unfold v4l2_queue_bufs
    by_cases h : env.qbufOk i <;> simp [h, List.forall_mem_cons]
    exact ih

/-- Acts of `v4l2_start_capture` are QBUF calls or the STREAMON. -/
theorem start_capture_mem (env : StartEnv) (n : Nat) :
    ∀ a ∈ (v4l2_start_capture env n).1, (∃ i, a = Act.qbuf i) ∨ a = Act.streamOn := by
  unfold v4l2_start_capture
  by_cases h : (v4l2_queue_bufs env (List.range n)).2 <;> simp [h] <;>
    intro a ha
  · rcases ha with ha | ha
    · exact Or.inl (queue_bufs_acts env _ a ha)
    · exact Or.inr ha
  · exact Or.inl (queue_bufs_acts env _ a ha)

/-- Any predicate false on QBUF and STREAMON counts zero acts in a
startup trace. -/
theorem start_capture_countP (env : StartEnv) (n : Nat) (p : Act → Bool)
    (hq : ∀ i, p (Act.qbuf i) = false) (hs : p Act.streamOn = false) :
    (v4l2_start_capture env n).1.countP p = 0 := by
  refine List.countP_eq_zero.mpr ?_
  intro a ha
  rcases start_capture_mem env n a ha with ⟨i, rfl⟩ | rfl <;> simp [hq, hs]

/-- The thread loop never issues STREAMOFF itself. -/
theorem loop_no_streamOff (inputs : List IterInput) (frames : Nat) :
    (v4l2_thread_loop frames inputs).1.countP isStreamOff = 0 := by
  induction inputs generalizing frames with
  | nil => rfl
  | cons it rest ih =>
    rcases it with ⟨ev, sel, dq, qb⟩
    cases ev
    · cases sel with
      | err e => cases e <;> simp [v4l2_thread_loop, List.countP_cons, isStreamOff, ih]
      | timeout => simp [v4l2_thread_loop, List.countP_cons, isStreamOff, ih]
      | ready =>
        cases dq with
        | err e => cases e <;> simp [v4l2_thread_loop, List.countP_cons, isStreamOff, ih]
        | ok idx ts => cases qb <;> simp [v4l2_thread_loop, List.countP_cons, isStreamOff, ih]
    · simp [v4l2_thread_loop]

/-- If every remaining input already shows the stop event set, the loop
exits immediately, emitting nothing. -/
theorem loop_nil_of_all (inputs : List IterInput)
    (h : (inputs.all fun it => it.eventSet) = true) :
    ∀ frames, (v4l2_thread_loop frames inputs).1 = [] := by
  intro frames
  cases inputs with
  | nil => rfl
  | cons it rest =>
    simp [List.all_cons] at h
    simp [v4l2_thread_loop, h.1]

/-- If the stop event is set from input position `m` on and the inputs
cover position `m`, the loop has exited by then (by break or by
observing the event at the top of an iteration). -/
theorem loop_exits (inputs : List IterInput) (frames m : Nat)
    (h : ((inputs.drop m).all fun it => it.eventSet) = true)
    (hm : m < inputs.length) :
    (v4l2_thread_loop frames inputs).2.1 = true := by
  induction inputs generalizing frames m with
  | nil => simp at hm
  | cons it rest ih =>
    cases m with
    | zero =>
      simp [List.all_cons] at h
      simp [v4l2_thread_loop, h.1]
    | succ m' =>
      have h' : ((rest.drop m').all fun it => it.eventSet) = true := h
      have hm' : m' < rest.length := by
        simp at hm
        omega
      rcases it with ⟨ev, sel, dq, qb⟩
      cases ev
      · cases sel with
        | err e => cases e <;> simp [v4l2_thread_loop, ih _ m' h' hm']
        | timeout => simp [v4l2_thread_loop, ih _ m' h' hm']
        | ready =>
          cases dq with
          | err e => cases e <;> simp [v4l2_thread_loop, ih _ m' h' hm']
          | ok idx ts => cases qb <;> simp [v4l2_thread_loop, ih _ m' h' hm']
      · simp [v4l2_thread_loop]

/-- Once the stop event is set (from input position `k+1` on, i.e.
while iteration `k`'s bounded wait is in progress), the loop performs
at most `k+1` select calls in total: the wait in progress is the last
one, and no new wait is started after the signal. -/
theorem loop_select_bound (inputs : List IterInput) (frames k : Nat)
    (h : ((inputs.drop (k + 1)).all fun it => it.eventSet) = true) :
    (v4l2_thread_loop frames inputs).1.countP isSelect ≤ k + 1 := by
  induction inputs generalizing frames k with
  | nil => simp [v4l2_thread_loop]
  | cons it rest ih =>
    rcases it with ⟨ev, sel, dq, qb⟩
    cases ev
    · cases k with
      | zero =>
        have h0 : (rest.all fun it => it.eventSet) = true := h
        cases sel with
        | err e =>
          cases e <;>
            simp [v4l2_thread_loop, loop_nil_of_all rest h0, List.countP_cons, isSelect]
        | timeout =>
          simp [v4l2_thread_loop, loop_nil_of_all rest h0, List.countP_cons, isSelect]
        | ready =>
          cases dq with
          | err e =>
            cases e <;>
              simp [v4l2_thread_loop, loop_nil_of_all rest h0, List.countP_cons, isSelect]
          | ok idx ts =>
            cases qb <;>
              simp [v4l2_thread_loop, loop_nil_of_all rest h0, List.countP_cons, isSelect]
      | succ k' =>
        have h' : ((rest.drop (k' + 1)).all fun it => it.eventSet) = true := h
        cases sel with
        | err e =>
          cases e <;> simp [v4l2_thread_loop, List.countP_cons, isSelect]
          have := ih frames k' h'
          omega
        | timeout =>
          simp [v4l2_thread_loop, List.countP_cons, isSelect]
          have := ih frames k' h'
          omega
        | ready =>
          cases dq with
          | err e =>
            cases e <;> simp [v4l2_thread_loop, List.countP_cons, isSelect]
            have := ih frames k' h'
            omega
          | ok idx ts =>
            cases qb <;> simp [v4l2_thread_loop, List.countP_cons, isSelect]
            · have := ih (frames + 1) k' h'
              omega
    · simp [v4l2_thread_loop]

/-- Every select the loop issues carries the 1-second timeout the code
writes into `tv` before each wait. -/
theorem loop_selects_one (inputs : List IterInput) (frames : Nat) :
    ∀ a ∈ (v4l2_thread_loop frames inputs).1, isSelect a = true →
      a = Act.selectCall 1 := by
  induction inputs generalizing frames with
  | nil => simp [v4l2_thread_loop]
  | cons it rest ih =>
    intro a ha hsel
    rcases it with ⟨ev, sel, dq, qb⟩
    cases ev
    · cases sel with
      | err e =>
        cases e
        · simp [v4l2_thread_loop] at ha
          exact ha
        · simp [v4l2_thread_loop] at ha
          rcases ha with ha | ha
          · exact ha
          · exact ih frames a ha hsel
      | timeout =>
        simp [v4l2_thread_loop] at ha
        rcases ha with ha | ha
        · exact ha
        · exact ih frames a ha hsel
      | ready =>
        cases dq with
        | err e =>
          cases e
          · simp [v4l2_thread_loop] at ha
            rcases ha with ha | ha
            · exact ha
            · rw [ha] at hsel
              simp [isSelect] at hsel
          · simp [v4l2_thread_loop] at ha
            rcases ha with ha | ha | ha
            · exact ha
            · rw [ha] at hsel
              simp [isSelect] at hsel
            · exact ih frames a ha hsel
        | ok idx ts =>
          cases qb
          · simp [v4l2_thread_loop] at ha
            rcases ha with ha | ha | ha | ha
            · exact ha
            · rw [ha] at hsel
              simp [isSelect] at hsel
            · rw [ha] at hsel
              simp [isSelect] at hsel
            · rw [ha] at hsel
              simp [isSelect] at hsel
          · simp [v4l2_thread_loop] at ha
            rcases ha with ha | ha | ha | ha | ha
            · exact ha
            · rw [ha] at hsel
              simp [isSelect] at hsel
            · rw [ha] at hsel
              simp [isSelect] at hsel
            · rw [ha] at hsel
              simp [isSelect] at hsel
            · exact ih (frames + 1) a ha hsel
    · simp [v4l2_thread_loop] at ha

/-- In a trace of the form `pre ++ [streamOff]` with no STREAMOFF in
`pre`, nothing follows the STREAMOFF. -/
theorem no_extra_after_off (pre l1 l2 : List Act)
    (hpre : pre.countP isStreamOff = 0)
    (heq : pre ++ [Act.streamOff] = l1 ++ Act.streamOff :: l2) : l2 = [] := by
  rcases List.eq_nil_or_concat l2 with rfl | ⟨l2h, b, rfl⟩
  · rfl
  · exfalso
    have heq2 : pre ++ [Act.streamOff] = (l1 ++ Act.streamOff :: l2h) ++ [b] := by
      rw [heq]
      simp
    obtain ⟨h1, h2⟩ := List.append_inj' heq2 rfl
    have hmem : Act.streamOff ∈ pre := by
      rw [h1]
      simp
    have hno := List.countP_eq_zero.mp hpre _ hmem
    simp [isStreamOff] at hno

/-- A returning thread run has the shape `pre ++ [streamOff]` with no
STREAMOFF inside `pre`. -/
theorem thread_trace_decomp (env : StartEnv) (n : Nat) (inputs : List IterInput)
    (hret : (v4l2_thread env n inputs).2 = true) :
    ∃ pre, (v4l2_thread env n inputs).1 = pre ++ [Act.streamOff] ∧
      pre.countP isStreamOff = 0 := by
  cases hs : (v4l2_start_capture env n).2 with
  | false =>
    refine ⟨(v4l2_start_capture env n).1, ?_,
      start_capture_countP env n isStreamOff (fun i => rfl) rfl⟩
    unfold v4l2_thread
    simp [hs]
  | true =>
    cases hl : (v4l2_thread_loop 0 inputs).2.1 with
    | false =>
      exfalso
      unfold v4l2_thread at hret
      simp [hs, hl] at hret
    | true =>
      refine ⟨(v4l2_start_capture env n).1 ++ (v4l2_thread_loop 0 inputs).1, ?_, ?_⟩
      · unfold v4l2_thread
        simp [hs, hl]
      · simp [List.countP_append, loop_no_streamOff,
          start_capture_countP env n isStreamOff (fun i => rfl) rfl]

/-- Claim C9: whenever the capture thread returns — the startup-failure
path (queue or STREAMON failed, loop never entered) included — the
trace contains exactly one STREAMOFF, it is the final act before the
thread returns, and on the startup-failure path no frame was ever
delivered. -/
theorem claim_C9_streamoff_once (env : StartEnv) (n : Nat) (inputs : List IterInput)
    (hret : (v4l2_thread env n inputs).2 = true) :
    (v4l2_thread env n inputs).1.countP isStreamOff = 1 ∧
      (v4l2_thread env n inputs).1.getLast? = some Act.streamOff ∧
      ((v4l2_start_capture env n).2 = false →
        (v4l2_thread env n inputs).1.countP isDeliver = 0) := by
  obtain ⟨pre, hdec, hcnt⟩ := thread_trace_decomp env n inputs hret
  refine ⟨?_, ?_, ?_⟩
  · rw [hdec, List.countP_append, hcnt]
    rfl
  · rw [hdec]
    simp
  · intro hsf
    unfold v4l2_thread
    simp only [hsf, Bool.false_eq_true, ite_false]
    simp [List.countP_append, List.countP_cons, isDeliver,
      start_capture_countP env n isDeliver (fun i => rfl) rfl]

/-- Claim C9, witness: with STREAMON failing, the thread returns with
exactly one STREAMOFF and zero delivered frames. -/
theorem claim_C9_witness :
    (v4l2_thread envThreadFail 2 []).1.countP isStreamOff = 1 ∧
      (v4l2_thread envThreadFail 2 []).1.countP isDeliver = 0 := by
  have h := claim_C9_streamoff_once envThreadFail 2 [] (by decide)
  exact ⟨h.1, h.2.2 (by decide)⟩

/-- Claim C4: if the stop signal is set while the thread is blocked in
the select of iteration `k` (so the event reads as set from input
`k+1` on, and the schedule covers that position), the thread run
returns; at most `k+1` selects are ever issued — none after the wait
in progress, whose timeout, like every select's, is the 1 second the
loop writes into `tv`, so the thread leaves its loop within one
timeout period; STREAMOFF is issued exactly once; and no frame
delivery follows the STREAMOFF in the trace. -/
theorem claim_C4_stop_latency (env : StartEnv) (n : Nat) (inputs : List IterInput)
    (k : Nat) (hsig : ((inputs.drop (k + 1)).all fun it => it.eventSet) = true)
    (hlen : k + 1 < inputs.length) :
    (v4l2_thread env n inputs).2 = true ∧
      (v4l2_thread env n inputs).1.countP isSelect ≤ k + 1 ∧
      (∀ a ∈ (v4l2_thread env n inputs).1, isSelect a = true → a = Act.selectCall 1) ∧
      (v4l2_thread env n inputs).1.countP isStreamOff = 1 ∧
      (∀ l1 l2, (v4l2_thread env n inputs).1 = l1 ++ Act.streamOff :: l2 →
        l2.countP isDeliver = 0) := by
  cases hs : (v4l2_start_capture env n).2
  case true =>
    have hex : (v4l2_thread_loop 0 inputs).2.1 = true :=
      loop_exits inputs 0 (k + 1) hsig hlen
    have htrace : (v4l2_thread env n inputs).1 =
        (v4l2_start_capture env n).1 ++ (v4l2_thread_loop 0 inputs).1 ++
          [Act.streamOff] := by
      unfold v4l2_thread
      simp [hs, hex]
    have hret : (v4l2_thread env n inputs).2 = true := by
      unfold v4l2_thread
      simp [hs, hex]
    have hpre : ((v4l2_start_capture env n).1 ++
        (v4l2_thread_loop 0 inputs).1).countP isStreamOff = 0 := by
      simp [List.countP_append, loop_no_streamOff,
        start_capture_countP env n isStreamOff (fun i => rfl) rfl]
    refine ⟨hret, ?_, ?_, ?_, ?_⟩
    · rw [htrace]
      have hsel0 := start_capture_countP env n isSelect (fun i => rfl) rfl
      have hbound := loop_select_bound inputs 0 k hsig
      simp [List.countP_append, List.countP_cons, isSelect, hsel0]
      omega
    · intro a ha hsel
      rw [htrace] at ha
      rcases List.mem_append.mp ha with ha | ha
      · rcases List.mem_append.mp ha with ha | ha
        · rcases start_capture_mem env n a ha with ⟨i, rfl⟩ | rfl <;> simp [isSelect] at hsel
        · exact loop_selects_one inputs 0 a ha hsel
      · simp at ha
        rw [ha] at hsel
        simp [isSelect] at hsel
    · rw [htrace]
      simp [List.countP_append, List.countP_cons, isStreamOff, loop_no_streamOff,
        start_capture_countP env n isStreamOff (fun i => rfl) rfl]
    · intro l1 l2 hsplit
      rw [htrace, List.append_assoc] at hsplit
      have hsplit2 : ((v4l2_start_capture env n).1 ++ (v4l2_thread_loop 0 inputs).1) ++
          [Act.streamOff] = l1 ++ Act.streamOff :: l2 := by
        rw [List.append_assoc]
        exact hsplit
      have hl2 := no_extra_after_off _ l1 l2 hpre hsplit2
      simp [hl2]
  case false =>
    have htrace : (v4l2_thread env n inputs).1 =
        (v4l2_start_capture env n).1 ++ [Act.streamOff] := by
      unfold v4l2_thread
      simp [hs]
    have hret : (v4l2_thread env n inputs).2 = true := by
      unfold v4l2_thread
      simp [hs]
    have hpre := start_capture_countP env n isStreamOff (fun i => rfl) rfl
    refine ⟨hret, ?_, ?_, ?_, ?_⟩
    · rw [htrace]
      simp [List.countP_append, List.countP_cons, isSelect,
        start_capture_countP env n isSelect (fun i => rfl) rfl]
    · intro a ha hsel
      rw [htrace] at ha
      rcases List.mem_append.mp ha with ha | ha
      · rcases start_capture_mem env n a ha with ⟨i, rfl⟩ | rfl <;> simp [isSelect] at hsel
      · simp at ha
        rw [ha] at hsel
        simp [isSelect] at hsel
    · rw [htrace, List.countP_append, hpre]
      rfl
    · intro l1 l2 hsplit
      rw [htrace] at hsplit
      have hl2 := no_extra_after_off _ l1 l2 hpre hsplit
      simp [hl2]

/-- Claim C4, witness: signal set right after the first select —
the thread returns, issues at most one select and exactly one
STREAMOFF. -/
theorem claim_C4_witness :
    (v4l2_thread envThreadOk 2 inputsC4).2 = true ∧
      (v4l2_thread envThreadOk 2 inputsC4).1.countP isSelect ≤ 1 ∧
      (v4l2_thread envThreadOk 2 inputsC4).1.countP isStreamOff = 1 := by
  have h := claim_C4_stop_latency envThreadOk 2 inputsC4 0 (by decide) (by decide)
  exact ⟨h.1, h.2.1, h.2.2.2.1⟩

end V4l2
